import Mathlib

/-!
Shallow embedding of `wntr/network/controls.py`: control conditions,
control actions, and control classes of the WNTR water network toolkit.

Simulation clock values in the time-condition claims are whole seconds, so
the time cursors are modelled as integers (`ℤ`); Python's `%` on a positive
modulus agrees with Lean's Euclidean `Int.emod`, and `np.floor(x / 86400)`
on integers agrees with Lean's `Int` division by a positive divisor.
Physical quantities (heads, flows, thresholds) are modelled as rationals
(`ℚ`); the float constant `math.pi` is embedded as the exact rational value
of the IEEE-754 double closest to pi.
-/

namespace WNTRControls

/-- The exact rational value of the IEEE-754 double `math.pi`
(3.141592653589793...). -/
def piFloat : ℚ := 884279719003555 / 281474976710656

/-!
SimTimeCondition.evaluate (controls.py lines 375-398).

The condition state is `relation` (tri-state code: 0 = at, -1 = before,
1 = after), `threshold`, and `rpt` (the `_repeat` field; `0` models the
falsy value `False`, a positive value models a period in seconds).
`evaluate` reads `sim_time` and `prev_sim_time` from the model; here they
are the arguments `curTime` and `prevTime`.  The result is the pair of the
`_backtrack` field the method leaves behind and the returned boolean.
The Python `int(...)` casts are identities on integer-valued times.
-/

/-- Embedding of `SimTimeCondition.evaluate`: given the relation code,
threshold, repeat period (0 = no repeat), current and previous simulation
time, return (backtrack left in `_backtrack`, returned boolean). -/
def simTimeEvaluate (relation threshold rpt curTime prevTime : ℤ) :
    ℤ × Bool :=
  let cur := if rpt ≠ 0 ∧ curTime > threshold
             then (curTime - threshold) % rpt else curTime
  let prev := if rpt ≠ 0 ∧ curTime > threshold
              then (prevTime - threshold) % rpt else prevTime
  if relation = 0 ∧ prev < threshold ∧ threshold ≤ cur then
    (cur - threshold, true)
  else if relation = 1 ∧ cur ≥ threshold ∧ prev < threshold then
    (cur - threshold, true)
  else if relation = 1 ∧ cur ≥ threshold ∧ prev ≥ threshold then
    (0, true)
  else if relation = -1 ∧ cur ≥ threshold ∧ prev < threshold then
    (cur - threshold, false)
  else if relation = 1 ∧ cur ≥ threshold ∧ prev ≥ threshold then
    (0, false)
  else
    (0, false)

/-!
TimeOfDayCondition.evaluate (controls.py lines 270-300).

State: `relation` (0, -1 or 1), `threshold` (seconds past midnight),
`firstDay`, and `rpt` (the `_repeat` boolean).  The cursors are the
model's `shifted_time` / `prev_shifted_time`.  The `_backtrack` field may
be left as `None`, modelled by `Option ℤ`.
-/

/-- Embedding of `TimeOfDayCondition.evaluate`: returns (backtrack left in
`_backtrack`, returned boolean). -/
def timeOfDayEvaluate (relation threshold firstDay : ℤ) (rpt : Bool)
    (curTime prevTime : ℤ) : Option ℤ × Bool :=
  let day := curTime / 86400
  if day < firstDay then (none, false)
  else
    let cur := if rpt then (curTime - threshold) % 86400
               else curTime - firstDay * 86400
    let prev := if rpt then (prevTime - threshold) % 86400
                else prevTime - firstDay * 86400
    if relation = 0 ∧ prev < threshold ∧ threshold ≤ cur then
      (some (cur - threshold), true)
    else if relation = 1 ∧ cur ≥ threshold ∧ prev < threshold then
      (some (cur - threshold), true)
    else if relation = 1 ∧ cur ≥ threshold ∧ prev ≥ threshold then
      (some 0, true)
    else if relation = -1 ∧ cur ≥ threshold ∧ prev < threshold then
      (some (cur - threshold), false)
    else if relation = -1 ∧ cur ≥ threshold ∧ prev ≥ threshold then
      (none, false)
    else
      (none, false)

/-!
ControlAction (controls.py lines 621-686).

An action is `(target_obj, attribute, value)`; the target object is
identified by name and its current attribute value is passed in explicitly
(the attribute bag read `getattr(target, self._attribute)`).  Attribute
values in the claims are floats, modelled as `ℚ`.
-/

/-- Embedding of `ControlAction._RunControlActionImpl`: given the target's
current attribute value `origValue` and the action's `value`, return the
attribute value after the call together with the returned triple
(change flag, change tuple `(target, attribute)`, original value).  The
source compares with plain `==`, no tolerance. -/
def controlActionRun (targetName attr : String) (origValue value : ℚ) :
    ℚ × (Bool × Option (String × String) × Option ℚ) :=
  if origValue = value then (origValue, (false, none, none))
  else (value, (true, some (targetName, attr), some origValue))

/-- Embedding of `ControlAction.__eq__` for float-valued actions: same
target and attribute, and the two actions' `_value` fields within absolute
tolerance 1e-10. -/
def controlActionEq (target1 attr1 : String) (value1 : ℚ)
    (target2 attr2 : String) (value2 : ℚ) : Bool :=
  if target1 = target2 ∧ attr1 = attr2 then
    if |value1 - value2| < 1 / 10 ^ 10 then true else false
  else false

/-!
OrCondition.backtrack and AndCondition.backtrack (controls.py lines
556-558 and 587-589): `np.max([c1.backtrack, c2.backtrack])`.

A condition's backtrack is an integer or None (`Option ℤ`).  `np.max` over
the two-element list reduces with the library's Python-2-era object
comparison, under which None sorts below every number.
-/

/-- Embedding of `np.max([a, b])` on backtrack values, None sorting below
every integer. -/
def npMaxPair (a b : Option ℤ) : Option ℤ :=
  match a, b with
  | none, b => b
  | some x, none => some x
  | some x, some y => some (max x y)

/-- Embedding of the `OrCondition.backtrack` property, applied to the two
children's backtrack values. -/
def orConditionBacktrack (b1 b2 : Option ℤ) : Option ℤ := npMaxPair b1 b2

/-- Embedding of the `AndCondition.backtrack` property, applied to the two
children's backtrack values. -/
def andConditionBacktrack (b1 b2 : Option ℤ) : Option ℤ := npMaxPair b1 b2

/-- Order on backtrack values: None (no correction known) below every
integer backtrack. -/
def backtrackLe (a b : Option ℤ) : Prop :=
  match a, b with
  | none, _ => True
  | some _, none => False
  | some x, some y => x ≤ y

/-!
ConditionalControl._IsControlActionRequiredImpl (controls.py lines
1019-1073).

The control state is the source object (whether its type is `Tank` and its
current attribute value `val`), the source attribute name, the comparison
`_operation` (a numpy ufunc, modelled as a boolean relation on `ℚ`), the
`_threshold`, and `_partial_step_for_tanks`.  The model supplies
`sim_time`, `prev_sim_time`, and the tank's `prev_demand` (`qnet`) and
`diameter`.
-/

/-- Truthiness of the source's second guard `type(self._source_obj ==
wntr.network.Tank)`: the `==` produces a bool, whose `type` is the class
`bool`, and a class object is always truthy — so this factor of the guard
is true for every source object, whatever its type. -/
def typeOfBoolCmpTruthy : Bool := true

/-- The numpy comparison `np.greater` as a boolean relation on rationals. -/
def ratGt (a b : ℚ) : Bool := decide (a > b)

/-- Embedding of `ConditionalControl._IsControlActionRequiredImpl`:
returns the pair (action required, backtrack). -/
def conditionalIsRequired (isTank : Bool) (attr : String)
    (partialStep : Bool) (op : ℚ → ℚ → Bool) (threshold : ℚ)
    (val qnet diameter : ℚ) (simTime prevSimTime : ℚ)
    (presolve : Bool) : Bool × Option ℤ :=
  if isTank = true ∧ attr = "head" ∧ simTime ≠ 0 ∧ partialStep = true then
    if presolve then
      let deltaH := 4 * qnet * (simTime - prevSimTime) /
        (piFloat * diameter ^ 2)
      let nextVal := val + deltaH
      if op nextVal threshold ∧ op val threshold then (false, none)
      else if op nextVal threshold then
        let m := (nextVal - val) / (simTime - prevSimTime)
        let b := nextVal - m * simTime
        let newT := (threshold - b) / m
        (true, some ⌊simTime - newT⌋)
      else (false, none)
    else
      if op val threshold then (true, some 0) else (false, none)
  else if typeOfBoolCmpTruthy = true ∧ attr = "head" ∧ simTime = 0 ∧
      partialStep = true then
    if presolve then
      if op val threshold then (true, some 0) else (false, none)
    else (false, none)
  else if presolve then (false, none)
  else if op val threshold then (true, some 0) else (false, none)

/-!
_PRVControl (controls.py lines 1273-1344).

The valve's hydraulic state is its `_status`, `flow`, `setting`, the end
node's `elevation`, and the two end nodes' heads; `_Htol`, `_Qtol` and the
`_resistance_coefficient` are fixed at construction.
-/

/-- The three pre-built actions a _PRVControl may store into
`_action_to_run`. -/
inductive PRVAction
  | closeValve
  | openValve
  | activeValve
deriving DecidableEq

/-- Valve link status (wntr.network.LinkStatus values used by the PRV
control). -/
inductive ValveStatus
  | active
  | opened
  | closed
deriving DecidableEq

/-- Resistance coefficient computed once in `_PRVControl.__init__`:
`0.0826*0.02*diameter**(-5)*diameter*2.0`. -/
def prvResistanceCoefficient (diameter : ℚ) : ℚ :=
  0.0826 * 0.02 * (1 / diameter ^ 5) * diameter * 2

/-- Embedding of `_PRVControl._IsControlActionRequiredImpl`: returns the
action stored into `_action_to_run` (none when the field is not assigned)
together with the returned pair (action required, backtrack). -/
def prvIsRequired (presolve : Bool) (status : ValveStatus)
    (flow setting elevationEnd headStart headEnd Htol Qtol rc : ℚ) :
    Option PRVAction × (Bool × Option ℤ) :=
  if presolve then (none, (false, none))
  else
    let headSetting := setting + elevationEnd
    match status with
    | .active =>
      if flow < -Qtol then (some .closeValve, (true, some 0))
      else
        let Hl := rc * |flow| ^ 2
        if headStart < headSetting + Hl - Htol then
          (some .openValve, (true, some 0))
        else (none, (false, none))
    | .opened =>
      if flow < -Qtol then (some .closeValve, (true, some 0))
      else
        let Hl := rc * |flow| ^ 2
        if headStart > headSetting + Hl + Htol then
          (some .activeValve, (true, some 0))
        else (none, (false, none))
    | .closed =>
      if headStart > headEnd + Htol ∧ headStart < headSetting - Htol then
        (some .openValve, (true, some 0))
      else if headStart > headEnd + Htol ∧ headEnd < headSetting - Htol then
        (some .activeValve, (true, some 0))
      else (none, (false, none))

/-!
TimeControl.__init__ (controls.py lines 836-861).

The constructor classifies the control action to assign a priority, checks
the time flag, rejects daily triggers beyond 24 hours, rejects SIM_TIME
triggers already in the past, and pushes past SHIFTED_TIME triggers one
day forward.  A raised exception is modelled as `Except.error` carrying
the message.
-/

/-- Classification of the control action held by a TimeControl or
ConditionalControl, as tested at the top of `__init__`: a Link status
action with value opened, a Link status action with value closed, or
anything else. -/
inductive ActionKind
  | openLink
  | closeLink
  | other
deriving DecidableEq

/-- Priority assignment at the top of `TimeControl.__init__` (the same
assignment appears in `ConditionalControl.__init__`): opening a link gets
priority 0, closing a link priority 3, everything else 0. -/
def controlPriority (kind : ActionKind) : ℤ :=
  match kind with
  | .openLink => 0
  | .closeLink => 3
  | .other => 0

/-- Embedding of `TimeControl.__init__`: returns a construction error (the
raised message) or the constructed state (priority, `_run_at_time` after
any adjustment). -/
def timeControlInit (kind : ActionKind) (runAtTime : ℤ) (timeFlag : String)
    (dailyFlag : Bool) (simTime shiftedTime : ℤ) :
    Except String (ℤ × ℤ) :=
  let priority := controlPriority kind
  if timeFlag ≠ "SIM_TIME" ∧ timeFlag ≠ "SHIFTED_TIME" then
    .error "In TimeControl::__init__, time_flag must be SIM_TIME or SHIFTED_TIME"
  else if dailyFlag = true ∧ runAtTime > 24 * 3600 then
    .error "In TimeControl, a daily control was requested, however, the time passed in was not between 0 and 24*3600"
  else if timeFlag = "SIM_TIME" ∧ runAtTime < simTime then
    .error "You cannot create a time control that should be activated before the start of the simulation."
  else if timeFlag = "SHIFTED_TIME" ∧ runAtTime < shiftedTime then
    .ok (priority, runAtTime + 24 * 3600)
  else
    .ok (priority, runAtTime)

/-!
The _RunControlActionImpl methods of the five control variants
(controls.py lines 901-922, 1075-1090, 1213-1228, 1266-1271, 1335-1344).

Each first compares the caller-supplied priority with the control's own
and returns (False, None, None) without touching anything on a mismatch;
otherwise it calls the stored action's RunControlAction.  The action is
modelled as a state transformer over the target entity state (an arbitrary
type `σ`), so the frame property "the action is never invoked" is the
statement that the output state equals the input state for every action.
-/

/-- The triple a run returns: (change flag, change tuple, original
value). -/
abbrev ChangeTriple := Bool × Option (String × String) × Option ℚ

/-- Embedding of `TimeControl._RunControlActionImpl`: result is (entity
state after the call, `_run_at_time` after the call, returned triple);
on a match a daily control advances `_run_at_time` by 24 hours after
running the action. -/
def timeControlRun {σ : Type} (ctrlPriority priority : ℤ) (runAtTime : ℤ)
    (dailyFlag : Bool) (action : σ → σ × ChangeTriple) (s : σ) :
    σ × ℤ × ChangeTriple :=
  if ctrlPriority ≠ priority then (s, runAtTime, (false, none, none))
  else
    let (s1, r) := action s
    let rt := if dailyFlag then runAtTime + 24 * 3600 else runAtTime
    (s1, rt, r)

/-- Embedding of `ConditionalControl._RunControlActionImpl`. -/
def conditionalControlRun {σ : Type} (ctrlPriority priority : ℤ)
    (action : σ → σ × ChangeTriple) (s : σ) : σ × ChangeTriple :=
  if ctrlPriority ≠ priority then (s, (false, none, none))
  else action s

/-- Embedding of `MultiConditionalControl._RunControlActionImpl`. -/
def multiConditionalControlRun {σ : Type} (ctrlPriority priority : ℤ)
    (action : σ → σ × ChangeTriple) (s : σ) : σ × ChangeTriple :=
  if ctrlPriority ≠ priority then (s, (false, none, none))
  else action s

/-- Embedding of `_CheckValveHeadControl._RunControlActionImpl`. -/
def checkValveControlRun {σ : Type} (ctrlPriority priority : ℤ)
    (action : σ → σ × ChangeTriple) (s : σ) : σ × ChangeTriple :=
  if ctrlPriority ≠ priority then (s, (false, none, none))
  else action s

/-- Embedding of `_PRVControl._RunControlActionImpl`; the action run on a
priority match is the stored `_action_to_run`. -/
def prvControlRun {σ : Type} (ctrlPriority priority : ℤ)
    (actionToRun : σ → σ × ChangeTriple) (s : σ) : σ × ChangeTriple :=
  if ctrlPriority ≠ priority then (s, (false, none, none))
  else actionToRun s

/-!
ValueCondition identity (controls.py lines 61-62 and 401-448).

A ValueCondition holds a source object, attribute, parsed relation and
threshold; `name` is formatted from those fields.
`ControlCondition.__hash__` hashes the name and ValueCondition inherits
it; no class in the condition hierarchy defines `__eq__`, so `==` on
conditions is Python's default object identity.  Object identity is
modelled by an explicit `objId` field, and Python's string hash by a
deterministic function of the string (determinism is the only property
used).
-/

/-- Relation tags produced by `_parse_relation`. -/
inductive Relation
  | eq | ne | lt | gt | le | ge
deriving DecidableEq

/-- `_relation_to_str` on parsed relations. -/
def relationToStr (r : Relation) : String :=
  match r with
  | .eq => "="
  | .ne => "<>"
  | .lt => "<"
  | .gt => ">"
  | .le => "<="
  | .ge => ">="

/-- A constructed ValueCondition; `objId` models the Python object's
identity. -/
structure ValueCondition where
  objId : ℕ
  sourceName : String
  sourceAttr : String
  relation : Relation
  threshold : ℚ
deriving DecidableEq

/-- The `name` property, formatted from the fields as
obj:attr_relation_threshold; the threshold is rendered by a deterministic
textual form of the value. -/
def valueConditionName (c : ValueCondition) : String :=
  c.sourceName ++ ":" ++ c.sourceAttr ++ "_" ++ relationToStr c.relation
    ++ "_" ++ toString c.threshold.num ++ "/" ++ toString c.threshold.den

/-- Python's string hash, modelled as a deterministic function of the
string's characters. -/
def pyStringHash (s : String) : ℕ :=
  s.foldl (fun h c => h * 31 + c.toNat) 7

/-- `ControlCondition.__hash__`, inherited by ValueCondition:
`hash(self.name)`. -/
def valueConditionHash (c : ValueCondition) : ℕ :=
  pyStringHash (valueConditionName c)

/-- Python `==` on two ValueCondition objects: default object identity,
since no `__eq__` is defined in the condition class hierarchy. -/
def valueConditionPyEq (c1 c2 : ValueCondition) : Bool :=
  decide (c1.objId = c2.objId)

/-- The size of the Python set built by inserting both conditions: the set
keeps both members unless they compare equal. -/
def valueConditionSetSize (c1 c2 : ValueCondition) : ℕ :=
  if valueConditionPyEq c1 c2 then 1 else 2

end WNTRControls

open WNTRControls

-- sanity checks on Python-compatible integer semantics
example : ((-11600 : ℤ) % 86400) = 74800 := by decide
example : ((300 : ℤ) % 300) = 0 := by decide

/-- C1: for a periodic SimTimeCondition with relation at, threshold 100 and
repeat 300, the code fires only on the step ending at cursor 100; the steps
ending at 400 and 700 (where the claim requires firing) evaluate false,
because the modulo-reduced cursor is compared against the unreduced
threshold. -/
theorem simTime_at_periodic_sequence :
    (simTimeEvaluate 0 100 300 100 0).2 = true ∧
    (simTimeEvaluate 0 100 300 150 100).2 = false ∧
    (simTimeEvaluate 0 100 300 400 150).2 = false ∧
    (simTimeEvaluate 0 100 300 450 400).2 = false ∧
    (simTimeEvaluate 0 100 300 700 450).2 = false ∧
    (simTimeEvaluate 0 100 300 750 700).2 = false := by
  decide

/-- C2: a time condition with relation before (code -1) can never evaluate
true: every branch of `TimeOfDayCondition.evaluate` and of
`SimTimeCondition.evaluate` for relation -1 returns false.  In particular
the repeating time-of-day condition with threshold 21600 returns false at
clock time 10000 (inside [0, 21600), where the claim requires true). -/
theorem before_relation_never_true :
    (∀ threshold firstDay : ℤ, ∀ rpt : Bool, ∀ curTime prevTime : ℤ,
      (timeOfDayEvaluate (-1) threshold firstDay rpt curTime prevTime).2
        = false) ∧
    (∀ threshold rpt curTime prevTime : ℤ,
      (simTimeEvaluate (-1) threshold rpt curTime prevTime).2 = false) ∧
    timeOfDayEvaluate (-1) 21600 0 true 10000 9000 = (none, false) := by
  refine ⟨?_, ?_, by decide⟩
  · intro threshold firstDay rpt curTime prevTime
    simp only [timeOfDayEvaluate]
    split_ifs <;> simp_all
  · intro threshold rpt curTime prevTime
    simp only [simTimeEvaluate]
    split_ifs <;> simp_all

/-- C3 counterexample: running a ControlAction whose value differs from the
current attribute value by less than 1e-10 (here by 1e-11) is not a no-op:
the run reports changed=true, mutates the attribute, and returns the
original value, even though the two values are equal up to the 1e-10
tolerance. -/
theorem controlActionRun_no_tolerance_counterexample :
    controlActionRun "pump" "status" 0 (1 / 10 ^ 11) =
      (1 / 10 ^ 11, (true, some ("pump", "status"), some 0)) ∧
    |(0 : ℚ) - 1 / 10 ^ 11| < 1 / 10 ^ 10 := by
  constructor
  · simp only [controlActionRun]
    norm_num
  · have h : |(0 : ℚ) - 1 / 10 ^ 11| = 1 / 10 ^ 11 := by
      rw [abs_sub_comm, sub_zero, abs_of_nonneg (by norm_num)]
    rw [h]
    norm_num

/-- C3 amended: running a ControlAction is a no-op reporting no change
(changed=false, null change tuple, null previous value, attribute left
unmodified) exactly when the target attribute is exactly equal to the new
value; the 1e-10 absolute tolerance governs only `ControlAction.__eq__`,
the equality comparison of two actions, never the run itself. -/
theorem controlActionRun_noop_iff_exact_equality :
    (∀ (t a : String) (origValue value : ℚ),
      controlActionRun t a origValue value = (origValue, (false, none, none))
        ↔ origValue = value) ∧
    (∀ (t a : String) (v1 v2 : ℚ),
      controlActionEq t a v1 t a v2 = true ↔ |v1 - v2| < 1 / 10 ^ 10) := by
  constructor
  · intro t a origValue value
    simp only [controlActionRun]
    split_ifs with h
    · simp [h]
    · simp [h, Ne.symm h]
  · intro t a v1 v2
    simp only [controlActionEq]
    split_ifs <;> simp_all

/-- C8: for every pair of backtrack values the two children of an And or Or
combinator may hold after evaluation (an integer or None), the combinator's
backtrack is the maximum: it is at least each child's backtrack and equals
one of them, and the And and Or combinators agree. -/
theorem combinator_backtrack_is_max (b1 b2 : Option ℤ) :
    backtrackLe b1 (orConditionBacktrack b1 b2) ∧
    backtrackLe b2 (orConditionBacktrack b1 b2) ∧
    (orConditionBacktrack b1 b2 = b1 ∨ orConditionBacktrack b1 b2 = b2) ∧
    andConditionBacktrack b1 b2 = orConditionBacktrack b1 b2 := by
  cases b1 with
  | none =>
    cases b2 <;>
      simp [orConditionBacktrack, andConditionBacktrack, npMaxPair,
        backtrackLe]
  | some x =>
    cases b2 with
    | none =>
      simp [orConditionBacktrack, andConditionBacktrack, npMaxPair,
        backtrackLe]
    | some y =>
      refine ⟨le_max_left x y, le_max_right x y, ?_, rfl⟩
      rcases max_choice x y with h | h <;>
        simp [orConditionBacktrack, npMaxPair, h]

/-- C10: at simulation time exactly zero, every ConditionalControl whose
source attribute is named head takes the degenerate tank branch regardless
of the source object's actual type (the guard compares a boolean's type,
which is always truthy): the presolve call returns the direct comparison of
the current value against the threshold with backtrack 0 when true, and the
postsolve call returns (false, none) unconditionally. -/
theorem conditional_time_zero_head_any_type (isTank : Bool)
    (op : ℚ → ℚ → Bool) (threshold val qnet diameter prevSimTime : ℚ) :
    conditionalIsRequired isTank "head" true op threshold val qnet diameter
        0 prevSimTime true =
      (if op val threshold then (true, some 0) else (false, none)) ∧
    conditionalIsRequired isTank "head" true op threshold val qnet diameter
        0 prevSimTime false = (false, none) := by
  constructor <;>
    · simp only [conditionalIsRequired, typeOfBoolCmpTruthy]
      split_ifs <;> simp_all

/-- C5: for a PRV control whose valve is closed, evaluated postsolve, the
open branch (upstream above downstream plus Htol and upstream below the
head setting minus Htol) is checked before the active branch (upstream
above downstream plus Htol and downstream below the head setting minus
Htol), with no action otherwise; at the boundary literals upstream=10,
downstream=2, setting+elevation=8, Htol=0.01 the active action is
selected. -/
theorem prv_closed_state_selection :
    (∀ flow setting elevationEnd headStart headEnd Htol Qtol rc : ℚ,
      prvIsRequired false .closed flow setting elevationEnd headStart
          headEnd Htol Qtol rc =
        if headStart > headEnd + Htol ∧
            headStart < setting + elevationEnd - Htol then
          (some .openValve, (true, some 0))
        else if headStart > headEnd + Htol ∧
            headEnd < setting + elevationEnd - Htol then
          (some .activeValve, (true, some 0))
        else (none, (false, none))) ∧
    prvIsRequired false .closed 0 8 0 10 2 (1 / 100) 0 0 =
      (some .activeValve, (true, some 0)) := by
  constructor
  · intro flow setting elevationEnd headStart headEnd Htol Qtol rc
    rfl
  · simp only [prvIsRequired]
    norm_num

/-- C4: for a ConditionalControl on a tank's head with comparison
np.greater, evaluated presolve at nonzero simulation time, when the
threshold lies strictly between the current head and the head predicted by
linear extrapolation (predicted = current + 4*Q_net*dt/(pi*D^2)), the
control reports action required with backtrack floor(cur_time -
(threshold - b)/m), where m and b are the slope and intercept of the
head-versus-time line over the step. -/
theorem conditional_tank_head_presolve_backtrack
    (threshold val qnet diameter simTime prevSimTime : ℚ)
    (hstep : prevSimTime < simTime) (hT : simTime ≠ 0)
    (hlo : val < threshold)
    (hhi : threshold <
      val + 4 * qnet * (simTime - prevSimTime) / (piFloat * diameter ^ 2)) :
    conditionalIsRequired true "head" true ratGt threshold val qnet diameter
        simTime prevSimTime true =
      (true, some
        (let nextVal := val + 4 * qnet * (simTime - prevSimTime) /
          (piFloat * diameter ^ 2)
         let m := (nextVal - val) / (simTime - prevSimTime)
         let b := nextVal - m * simTime
         ⌊simTime - (threshold - b) / m⌋)) := by
  simp only [conditionalIsRequired, ratGt]
  split_ifs <;> (try simp_all) <;> (try linarith)

/-- C4 witness: with current head 5.0, threshold 5.5, tank diameter 2,
net inflow chosen so the predicted head is exactly 6.0, and a 3600-second
step from time 0 to 3600, the control is action-required with backtrack
exactly 1800. -/
theorem conditional_tank_head_backtrack_witness :
    (0 : ℚ) < 3600 ∧ (3600 : ℚ) ≠ 0 ∧ (5 : ℚ) < 11 / 2 ∧
    (11 / 2 : ℚ) <
      5 + 4 * (piFloat / 3600) * ((3600 : ℚ) - 0) / (piFloat * 2 ^ 2) ∧
    conditionalIsRequired true "head" true ratGt (11 / 2) 5 (piFloat / 3600)
        2 3600 0 true = (true, some 1800) := by
  have hpi : piFloat ≠ 0 := by norm_num [piFloat]
  have hext :
      4 * (piFloat / 3600) * ((3600 : ℚ) - 0) / (piFloat * 2 ^ 2) = 1 := by
    field_simp
    ring
  have hhi : (11 / 2 : ℚ) <
      5 + 4 * (piFloat / 3600) * ((3600 : ℚ) - 0) / (piFloat * 2 ^ 2) := by
    rw [hext]; norm_num
  have h := conditional_tank_head_presolve_backtrack (11 / 2) 5
      (piFloat / 3600) 2 3600 0 (by norm_num) (by norm_num) (by norm_num) hhi
  refine ⟨by norm_num, by norm_num, by norm_num, hhi, ?_⟩
  rw [h]
  simp only [hext]
  norm_num

/-- C6 counterexample: constructing a one-shot SHIFTED_TIME TimeControl
whose run_at_time 100 is already in the past (current shifted_time 200) is
not a construction-time error: the constructor succeeds, silently
rescheduling the trigger one day later (100 + 86400 = 86500). -/
theorem timeControlInit_shifted_past_counterexample :
    timeControlInit .other 100 "SHIFTED_TIME" false 0 200 =
      .ok (0, 86500) := by
  rfl

/-- C6 amended: a one-shot SIM_TIME TimeControl with run_at_time before
the current sim_time raises at construction; a one-shot SHIFTED_TIME
TimeControl with run_at_time before the current shifted_time is not an
error — construction succeeds with the trigger moved forward by 24
hours. -/
theorem timeControlInit_past_behaviour (kind : ActionKind)
    (runAtTime simTime shiftedTime : ℤ) :
    (runAtTime < simTime →
      timeControlInit kind runAtTime "SIM_TIME" false simTime shiftedTime =
        .error "You cannot create a time control that should be activated before the start of the simulation.") ∧
    (runAtTime < shiftedTime →
      timeControlInit kind runAtTime "SHIFTED_TIME" false simTime
          shiftedTime = .ok (controlPriority kind, runAtTime + 24 * 3600)) := by
  constructor <;> intro hlt <;> simp [timeControlInit, hlt]

/-- C6 amended witness: at run_at_time 50 a one-shot SIM_TIME control with
sim_time 100 errors, and a one-shot SHIFTED_TIME control with shifted_time
100 is successfully built with run_at_time 86450. -/
theorem timeControlInit_past_behaviour_witness :
    (50 : ℤ) < 100 ∧
    timeControlInit .other 50 "SIM_TIME" false 100 0 =
      .error "You cannot create a time control that should be activated before the start of the simulation." ∧
    timeControlInit .other 50 "SHIFTED_TIME" false 0 100 =
      .ok (controlPriority .other, 50 + 24 * 3600) :=
  ⟨by decide,
   (timeControlInit_past_behaviour .other 50 100 0).1 (by decide),
   (timeControlInit_past_behaviour .other 50 0 100).2 (by decide)⟩

/-- C7: for every control variant (TimeControl, ConditionalControl,
MultiConditionalControl, check-valve control, PRV control), running at a
priority different from the control's own returns (false, none, none),
leaves the entity state untouched for every possible action (so the
action's run method is never invoked), and a daily TimeControl does not
advance its run_at_time. -/
theorem run_control_action_priority_mismatch {σ : Type}
    (ctrlPriority priority runAtTime : ℤ) (dailyFlag : Bool)
    (action : σ → σ × ChangeTriple) (s : σ)
    (h : ctrlPriority ≠ priority) :
    timeControlRun ctrlPriority priority runAtTime dailyFlag action s =
      (s, runAtTime, (false, none, none)) ∧
    conditionalControlRun ctrlPriority priority action s =
      (s, (false, none, none)) ∧
    multiConditionalControlRun ctrlPriority priority action s =
      (s, (false, none, none)) ∧
    checkValveControlRun ctrlPriority priority action s =
      (s, (false, none, none)) ∧
    prvControlRun ctrlPriority priority action s =
      (s, (false, none, none)) := by
  refine ⟨?_, ?_, ?_, ?_, ?_⟩ <;>
    simp [timeControlRun, conditionalControlRun, multiConditionalControlRun,
      checkValveControlRun, prvControlRun, h]

/-- C7 witness: a control of priority 0 queried at priority 3, holding an
action that would mutate the attribute from 0 to 1, reports
(false, none, none) from every variant and leaves the attribute at 0 (and
the daily TimeControl keeps run_at_time 7200). -/
theorem run_control_action_priority_mismatch_witness :
    (0 : ℤ) ≠ 3 ∧
    (timeControlRun 0 3 7200 true
        (fun q : ℚ => (q + 1, (true, some ("p", "status"), some q))) 0 =
      (0, 7200, (false, none, none)) ∧
    conditionalControlRun 0 3
        (fun q : ℚ => (q + 1, (true, some ("p", "status"), some q))) 0 =
      (0, (false, none, none)) ∧
    multiConditionalControlRun 0 3
        (fun q : ℚ => (q + 1, (true, some ("p", "status"), some q))) 0 =
      (0, (false, none, none)) ∧
    checkValveControlRun 0 3
        (fun q : ℚ => (q + 1, (true, some ("p", "status"), some q))) 0 =
      (0, (false, none, none)) ∧
    prvControlRun 0 3
        (fun q : ℚ => (q + 1, (true, some ("p", "status"), some q))) 0 =
      (0, (false, none, none))) :=
  ⟨by decide,
   run_control_action_priority_mismatch 0 3 7200 true
     (fun q : ℚ => (q + 1, (true, some ("p", "status"), some q))) 0
     (by decide)⟩

/-- C9 counterexample: two structurally identical ValueConditions (same
source, attribute, relation >= and threshold 14) that are distinct objects
have equal name and equal hash, but they do not compare equal, and a set
holding both has size two, not one. -/
theorem valueCondition_identity_counterexample :
    valueConditionName ⟨1, "tank3", "head", .ge, 14⟩ =
      valueConditionName ⟨2, "tank3", "head", .ge, 14⟩ ∧
    valueConditionHash ⟨1, "tank3", "head", .ge, 14⟩ =
      valueConditionHash ⟨2, "tank3", "head", .ge, 14⟩ ∧
    valueConditionPyEq ⟨1, "tank3", "head", .ge, 14⟩
      ⟨2, "tank3", "head", .ge, 14⟩ = false ∧
    valueConditionSetSize ⟨1, "tank3", "head", .ge, 14⟩
      ⟨2, "tank3", "head", .ge, 14⟩ = 2 := by
  refine ⟨rfl, rfl, by decide, ?_⟩
  simp [valueConditionSetSize, valueConditionPyEq]

/-- C9 amended: two structurally identical ValueConditions always have
equal name and equal hash, but equality — and deduplication when both are
inserted into a set — holds exactly when they are the same object: with
distinct identities the comparison is false and the set keeps both
members. -/
theorem valueCondition_name_hash_identity (c1 c2 : ValueCondition)
    (hsrc : c1.sourceName = c2.sourceName)
    (hattr : c1.sourceAttr = c2.sourceAttr)
    (hrel : c1.relation = c2.relation)
    (hth : c1.threshold = c2.threshold) :
    valueConditionName c1 = valueConditionName c2 ∧
    valueConditionHash c1 = valueConditionHash c2 ∧
    (valueConditionPyEq c1 c2 = true ↔ c1.objId = c2.objId) ∧
    valueConditionSetSize c1 c2 =
      (if c1.objId = c2.objId then 1 else 2) := by
  have hname : valueConditionName c1 = valueConditionName c2 := by
    simp [valueConditionName, hsrc, hattr, hrel, hth]
  refine ⟨hname, by simp [valueConditionHash, hname],
    by simp [valueConditionPyEq], ?_⟩
  simp [valueConditionSetSize, valueConditionPyEq]

/-- C9 amended witness: two structurally identical conditions with object
identities 1 and 2 share a name and hash, compare unequal, and fill a set
of size two. -/
theorem valueCondition_name_hash_identity_witness :
    ("tank3" : String) = "tank3" ∧
    (valueConditionName ⟨1, "tank3", "head", .ge, 14⟩ =
        valueConditionName ⟨2, "tank3", "head", .ge, 14⟩ ∧
      valueConditionHash ⟨1, "tank3", "head", .ge, 14⟩ =
        valueConditionHash ⟨2, "tank3", "head", .ge, 14⟩ ∧
      (valueConditionPyEq ⟨1, "tank3", "head", .ge, 14⟩
          ⟨2, "tank3", "head", .ge, 14⟩ = true ↔ (1 : ℕ) = 2) ∧
      valueConditionSetSize ⟨1, "tank3", "head", .ge, 14⟩
          ⟨2, "tank3", "head", .ge, 14⟩ =
        (if (1 : ℕ) = 2 then 1 else 2)) :=
  ⟨rfl, valueCondition_name_hash_identity _ _ rfl rfl rfl rfl⟩
